import Mathlib

/-!
Shallow embedding of the baking-cost-calculator core: the unit-conversion
service (weight/volume tables, density-based cross-category conversion) and
the cost engine (ingredient, energy, labor, packaging costs and aggregate
totals).  Numbers are modelled as exact rationals; JavaScript strings are
modelled as Lean strings with character-level lowercasing/trimming.
-/

/-- Character-level lowercasing, modelling JavaScript toLowerCase on ASCII. -/
def lowerChars (l : List Char) : List Char := l.map Char.toLower

/-- Strip leading and trailing whitespace, modelling JavaScript trim. -/
def trimChars (l : List Char) : List Char :=
  ((l.dropWhile Char.isWhitespace).reverse.dropWhile Char.isWhitespace).reverse

/-- The normalized form of a unit string: lowercased then trimmed, as in
the source (fromUnit.toLowerCase().trim()). -/
def normalizedUnit (s : String) : List Char := trimChars (lowerChars s.data)

/-- Substring containment, modelling JavaScript String.prototype.includes:
containsChars needle hay is true when needle occurs contiguously in hay. -/
def containsChars (needle : List Char) : List Char → Bool
  | [] => needle.isPrefixOf []
  | c :: t => needle.isPrefixOf (c :: t) || containsChars needle t

/-- Key lookup in an insertion-ordered table, modelling JavaScript object
indexing (keys are unique, so the first match is the only match). -/
def lookupFactor (table : List (String × ℚ)) (k : List Char) : Option ℚ :=
  (table.find? (fun p => p.1.data == k)).map (fun p => p.2)

/-- The factor a defined table access denotes; only used on branches where
the table access is known to be defined. -/
def getFactor (table : List (String × ℚ)) (k : List Char) : ℚ :=
  (lookupFactor table k).getD 0

/-- JavaScript truthiness of a number-or-undefined value: defined and
nonzero. -/
def truthy : Option ℚ → Bool
  | some v => decide (v ≠ 0)
  | none => false

/-- Weight units, all with their factor to grams. -/
def WEIGHT_CONVERSIONS : List (String × ℚ) :=
  [("g", 1),
   ("gram", 1),
   ("grams", 1),
   ("kg", 1000),
   ("kilogram", 1000),
   ("kilograms", 1000),
   ("oz", 28.3495),
   ("ounce", 28.3495),
   ("ounces", 28.3495),
   ("lb", 453.592),
   ("pound", 453.592),
   ("pounds", 453.592),
   ("ct", 55),
   ("count", 55),
   ("piece", 55)]

/-- Volume units, all with their factor to milliliters. -/
def VOLUME_CONVERSIONS : List (String × ℚ) :=
  [("ml", 1),
   ("milliliter", 1),
   ("milliliters", 1),
   ("l", 1000),
   ("liter", 1000),
   ("liters", 1000),
   ("tsp", 4.92892),
   ("teaspoon", 4.92892),
   ("teaspoons", 4.92892),
   ("tbsp", 14.7868),
   ("tablespoon", 14.7868),
   ("tablespoons", 14.7868),
   ("fl oz", 29.5735),
   ("cup", 236.588),
   ("cups", 236.588),
   ("pint", 473.176),
   ("pints", 473.176),
   ("quart", 946.353),
   ("quarts", 946.353),
   ("gal", 3785.41),
   ("gallon", 3785.41),
   ("gallons", 3785.41)]

/-- Densities in grams per milliliter, keyed by ingredient-name substring,
in the source's insertion order. -/
def INGREDIENT_DENSITIES : List (String × ℚ) :=
  [("water", 1.0),
   ("milk", 1.03),
   ("cream", 1.01),
   ("oil", 0.92),
   ("olive oil", 0.92),
   ("vegetable oil", 0.92),
   ("coconut oil", 0.92),
   ("butter", 0.911),
   ("honey", 1.42),
   ("syrup", 1.37),
   ("maple syrup", 1.33),
   ("molasses", 1.42),
   ("vanilla extract", 0.88),
   ("almond extract", 0.88),
   ("vanilla", 0.88),
   ("buttermilk", 1.03),
   ("yogurt", 1.04),
   ("kefir", 1.04),
   ("sour cream", 1.02),
   ("cream cheese", 1.04),
   ("sourdough starter", 1.0),
   ("eggs", 1.03),
   ("egg", 1.03),
   ("flour", 0.528),
   ("all-purpose flour", 0.528),
   ("bread flour", 0.54),
   ("cake flour", 0.51),
   ("whole wheat flour", 0.51),
   ("rye flour", 0.53),
   ("sugar", 0.845),
   ("granulated sugar", 0.845),
   ("brown sugar", 0.845),
   ("powdered sugar", 0.56),
   ("confectioners sugar", 0.56),
   ("salt", 1.217),
   ("baking powder", 0.9),
   ("baking soda", 0.9),
   ("yeast", 0.64),
   ("cinnamon", 0.56),
   ("spice", 0.56),
   ("spices", 0.56),
   ("cocoa", 0.54),
   ("cocoa powder", 0.54),
   ("cornstarch", 0.68),
   ("chocolate chips", 0.68),
   ("chocolate", 0.68),
   ("nuts", 0.53),
   ("chopped nuts", 0.53),
   ("raisins", 0.68),
   ("dried fruit", 0.68),
   ("coconut", 0.35),
   ("shredded coconut", 0.35),
   ("oats", 0.34),
   ("rolled oats", 0.34)]

/-- guessIngredientDensity: lowercase the ingredient name, iterate the
density table in insertion order and return the first entry whose key is a
substring of the name. -/
def guessIngredientDensity (ingredientName : String) : Option ℚ :=
  (INGREDIENT_DENSITIES.find?
    (fun p => containsChars p.1.data (lowerChars ingredientName.data))).map
    (fun p => p.2)

/-- convertUnits: same-unit short circuit, then weight-table conversion via
grams, then volume-table conversion via milliliters, then density-mediated
cross-category conversion, and otherwise the identity no-op. -/
def convertUnits (quantity : ℚ) (fromUnit toUnit : String)
    (ingredientName : String := "") : ℚ :=
  let f := normalizedUnit fromUnit
  let t := normalizedUnit toUnit
  if f = t then quantity
  else if truthy (lookupFactor WEIGHT_CONVERSIONS f) &&
          truthy (lookupFactor WEIGHT_CONVERSIONS t) then
    quantity * getFactor WEIGHT_CONVERSIONS f / getFactor WEIGHT_CONVERSIONS t
  else if truthy (lookupFactor VOLUME_CONVERSIONS f) &&
          truthy (lookupFactor VOLUME_CONVERSIONS t) then
    quantity * getFactor VOLUME_CONVERSIONS f / getFactor VOLUME_CONVERSIONS t
  else if ((lookupFactor VOLUME_CONVERSIONS f).isSome &&
           (lookupFactor WEIGHT_CONVERSIONS t).isSome) ||
          ((lookupFactor WEIGHT_CONVERSIONS f).isSome &&
           (lookupFactor VOLUME_CONVERSIONS t).isSome) then
    match guessIngredientDensity ingredientName with
    | some density =>
      if density ≠ 0 then
        if (lookupFactor VOLUME_CONVERSIONS f).isSome &&
           (lookupFactor WEIGHT_CONVERSIONS t).isSome then
          quantity * getFactor VOLUME_CONVERSIONS f * density /
            getFactor WEIGHT_CONVERSIONS t
        else
          quantity * getFactor WEIGHT_CONVERSIONS f / density /
            getFactor VOLUME_CONVERSIONS t
      else quantity
    | none => quantity
  else quantity


/-! Helper lemmas about table lookup and the branches of convertUnits. -/

theorem lookupFactor_mem {table : List (String × ℚ)} {k : List Char} {a : ℚ}
    (h : lookupFactor table k = some a) :
    ∃ p ∈ table, p.1.data = k ∧ p.2 = a := by
  unfold lookupFactor at h
  rcases Option.map_eq_some'.mp h with ⟨p, hp, rfl⟩
  refine ⟨p, List.mem_of_find?_eq_some hp, ?_, rfl⟩
  simpa using List.find?_some hp

theorem weight_factor_ne_zero {k : List Char} {a : ℚ}
    (h : lookupFactor WEIGHT_CONVERSIONS k = some a) : a ≠ 0 := by
  obtain ⟨p, hp, -, rfl⟩ := lookupFactor_mem h
  fin_cases hp <;> norm_num

theorem volume_factor_ne_zero {k : List Char} {a : ℚ}
    (h : lookupFactor VOLUME_CONVERSIONS k = some a) : a ≠ 0 := by
  obtain ⟨p, hp, -, rfl⟩ := lookupFactor_mem h
  fin_cases hp <;> norm_num

theorem density_ne_zero {n : String} {d : ℚ}
    (h : guessIngredientDensity n = some d) : d ≠ 0 := by
  unfold guessIngredientDensity at h
  rcases Option.map_eq_some'.mp h with ⟨p, hp, rfl⟩
  have hmem := List.mem_of_find?_eq_some hp
  fin_cases hmem <;> norm_num

theorem volume_key_not_weight :
    ∀ p ∈ VOLUME_CONVERSIONS, lookupFactor WEIGHT_CONVERSIONS p.1.data = none := by
  decide

theorem weight_key_not_volume :
    ∀ p ∈ WEIGHT_CONVERSIONS, lookupFactor VOLUME_CONVERSIONS p.1.data = none := by
  decide

theorem weight_lookup_none_of_volume {k : List Char} {a : ℚ}
    (h : lookupFactor VOLUME_CONVERSIONS k = some a) :
    lookupFactor WEIGHT_CONVERSIONS k = none := by
  obtain ⟨p, hp, hk, -⟩ := lookupFactor_mem h
  exact hk ▸ volume_key_not_weight p hp

theorem volume_lookup_none_of_weight {k : List Char} {a : ℚ}
    (h : lookupFactor WEIGHT_CONVERSIONS k = some a) :
    lookupFactor VOLUME_CONVERSIONS k = none := by
  obtain ⟨p, hp, hk, -⟩ := lookupFactor_mem h
  exact hk ▸ weight_key_not_volume p hp

theorem convertUnits_same {q : ℚ} {u v n : String}
    (h : normalizedUnit u = normalizedUnit v) : convertUnits q u v n = q := by
  simp [convertUnits, h]

theorem convertUnits_weight {q : ℚ} {u v n : String} {a b : ℚ}
    (hu : lookupFactor WEIGHT_CONVERSIONS (normalizedUnit u) = some a)
    (hv : lookupFactor WEIGHT_CONVERSIONS (normalizedUnit v) = some b)
    (hne : normalizedUnit u ≠ normalizedUnit v) :
    convertUnits q u v n = q * a / b := by
  have ha := weight_factor_ne_zero hu
  have hb := weight_factor_ne_zero hv
  simp [convertUnits, hu, hv, hne, truthy, ha, hb, getFactor]

theorem convertUnits_volume {q : ℚ} {u v n : String} {a b : ℚ}
    (hu : lookupFactor VOLUME_CONVERSIONS (normalizedUnit u) = some a)
    (hv : lookupFactor VOLUME_CONVERSIONS (normalizedUnit v) = some b)
    (hne : normalizedUnit u ≠ normalizedUnit v) :
    convertUnits q u v n = q * a / b := by
  have ha := volume_factor_ne_zero hu
  have hb := volume_factor_ne_zero hv
  have hu' := weight_lookup_none_of_volume hu
  have hv' := weight_lookup_none_of_volume hv
  simp [convertUnits, hu, hv, hu', hv', hne, truthy, ha, hb, getFactor]

theorem convertUnits_vol_to_weight {q : ℚ} {u v n : String} {a b d : ℚ}
    (hu : lookupFactor VOLUME_CONVERSIONS (normalizedUnit u) = some a)
    (hv : lookupFactor WEIGHT_CONVERSIONS (normalizedUnit v) = some b)
    (hd : guessIngredientDensity n = some d) :
    convertUnits q u v n = q * a * d / b := by
  have hu' := weight_lookup_none_of_volume hu
  have hv' := volume_lookup_none_of_weight hv
  have hd0 := density_ne_zero hd
  have hne : normalizedUnit u ≠ normalizedUnit v := by
    intro h
    rw [h, hv'] at hu
    exact Option.noConfusion hu
  simp [convertUnits, hu, hv, hu', hv', hd, hd0, hne, truthy, getFactor]

theorem convertUnits_weight_to_vol {q : ℚ} {u v n : String} {a b d : ℚ}
    (hu : lookupFactor WEIGHT_CONVERSIONS (normalizedUnit u) = some a)
    (hv : lookupFactor VOLUME_CONVERSIONS (normalizedUnit v) = some b)
    (hd : guessIngredientDensity n = some d) :
    convertUnits q u v n = q * a / d / b := by
  have hu' := volume_lookup_none_of_weight hu
  have hv' := weight_lookup_none_of_volume hv
  have hd0 := density_ne_zero hd
  have hne : normalizedUnit u ≠ normalizedUnit v := by
    intro h
    rw [h, hv'] at hu
    exact Option.noConfusion hu
  simp [convertUnits, hu, hv, hu', hv', hd, hd0, hne, truthy, getFactor]

theorem convertUnits_vol_weight_no_density {q : ℚ} {u v n : String} {a b : ℚ}
    (hu : lookupFactor VOLUME_CONVERSIONS (normalizedUnit u) = some a)
    (hv : lookupFactor WEIGHT_CONVERSIONS (normalizedUnit v) = some b)
    (hd : guessIngredientDensity n = none) :
    convertUnits q u v n = q := by
  have hu' := weight_lookup_none_of_volume hu
  have hv' := volume_lookup_none_of_weight hv
  have hne : normalizedUnit u ≠ normalizedUnit v := by
    intro h
    rw [h, hv'] at hu
    exact Option.noConfusion hu
  simp [convertUnits, hu, hv, hu', hv', hd, hne, truthy]

theorem convertUnits_weight_vol_no_density {q : ℚ} {u v n : String} {a b : ℚ}
    (hu : lookupFactor WEIGHT_CONVERSIONS (normalizedUnit u) = some a)
    (hv : lookupFactor VOLUME_CONVERSIONS (normalizedUnit v) = some b)
    (hd : guessIngredientDensity n = none) :
    convertUnits q u v n = q := by
  have hu' := volume_lookup_none_of_weight hu
  have hv' := weight_lookup_none_of_volume hv
  have hne : normalizedUnit u ≠ normalizedUnit v := by
    intro h
    rw [h, hv'] at hu
    exact Option.noConfusion hu
  simp [convertUnits, hu, hv, hu', hv', hd, hne, truthy]

theorem convertUnits_unresolved_from {q : ℚ} {u v n : String}
    (h1 : lookupFactor WEIGHT_CONVERSIONS (normalizedUnit u) = none)
    (h2 : lookupFactor VOLUME_CONVERSIONS (normalizedUnit u) = none) :
    convertUnits q u v n = q := by
  by_cases h : normalizedUnit u = normalizedUnit v
  · simp [convertUnits, h]
  · simp [convertUnits, h, h1, h2, truthy]

theorem convertUnits_unresolved_to {q : ℚ} {u v n : String}
    (h1 : lookupFactor WEIGHT_CONVERSIONS (normalizedUnit v) = none)
    (h2 : lookupFactor VOLUME_CONVERSIONS (normalizedUnit v) = none) :
    convertUnits q u v n = q := by
  by_cases h : normalizedUnit u = normalizedUnit v
  · simp [convertUnits, h]
  · simp [convertUnits, h, h1, h2, truthy]

/-! The cost engine: data model and per-recipe calculations. -/

/-- An ingredient line of a recipe. -/
structure Ingredient where
  name : String
  quantity : ℚ
  unit : String
  packageSize : ℚ
  packageUnit : String
  packagePrice : ℚ

/-- The three heating technologies of a stovetop process. -/
inductive StoveType where
  | gas
  | electric
  | induction
deriving DecidableEq

/-- A stovetop process; burnerBTU and burnerWattage are optional
per-process overrides of the settings defaults. -/
structure StovetopProcess where
  name : String
  stoveType : StoveType
  burnerBTU : Option ℚ
  burnerWattage : Option ℚ
  powerLevel : ℚ
  duration : ℚ

/-- The settings record read by the cost engine. -/
structure Settings where
  laborRate : ℚ
  gasRate : ℚ
  electricRate : ℚ
  stoveType : StoveType
  gasBurnerBTU : ℚ
  electricBurnerWattage : ℚ
  inductionBurnerWattage : ℚ
  gasBurnerEfficiency : ℚ
  electricBurnerEfficiency : ℚ
  inductionBurnerEfficiency : ℚ

/-- The per-recipe fields the cost engine reads. -/
structure RecipeState where
  ingredients : List Ingredient
  preheatTime : ℚ
  bakeTime : ℚ
  mixerTime : ℚ
  laborTime : ℚ
  laborRate : ℚ
  packagingCost : ℚ
  yieldQty : ℚ
  gasRate : ℚ
  electricRate : ℚ
  stovetopProcesses : List StovetopProcess

/-- The per-ingredient entry of the cost breakdown. -/
structure IngredientCostEntry where
  name : String
  quantity : ℚ
  unit : String
  convertedQuantity : ℚ
  packageUnit : String
  pricePerPackageUnit : ℚ
  cost : ℚ

/-- One ingredient line's cost: convert the used quantity to the package
unit, divide price by package size when positive, multiply. -/
def ingredientCostEntry (ing : Ingredient) : IngredientCostEntry :=
  let convertedQuantity := convertUnits ing.quantity ing.unit ing.packageUnit ing.name
  let pricePerPackageUnit := if ing.packageSize > 0 then ing.packagePrice / ing.packageSize else 0
  { name := ing.name
    quantity := ing.quantity
    unit := ing.unit
    convertedQuantity := convertedQuantity
    packageUnit := ing.packageUnit
    pricePerPackageUnit := pricePerPackageUnit
    cost := convertedQuantity * pricePerPackageUnit }

/-- The per-ingredient cost breakdown of a recipe. -/
def ingredientCosts (r : RecipeState) : List IngredientCostEntry :=
  r.ingredients.map ingredientCostEntry

/-- Total ingredient cost: left fold of the line costs, as in the source's
reduce. -/
def totalIngredientCost (r : RecipeState) : ℚ :=
  (ingredientCosts r).foldl (fun sum ing => sum + ing.cost) 0

/-- Fixed average gas oven draw, in BTU per hour. -/
def ovenBTU : ℚ := 25000

/-- Fixed oven thermal efficiency. -/
def ovenEfficiency : ℚ := 0.65

/-- Total oven time in hours. -/
def totalOvenTime (r : RecipeState) : ℚ := (r.preheatTime + r.bakeTime) / 60

/-- Therms of gas the oven uses. -/
def thermsUsed (r : RecipeState) : ℚ :=
  ovenBTU * totalOvenTime r / 100000 / ovenEfficiency

/-- Oven gas cost. -/
def gasCost (r : RecipeState) : ℚ := thermsUsed r * r.gasRate

/-- Fixed average stand mixer wattage. -/
def mixerWattage : ℚ := 300

/-- Mixer electricity use in kilowatt hours. -/
def mixerKWh (r : RecipeState) : ℚ := mixerWattage * (r.mixerTime / 60) / 1000

/-- Mixer electricity cost. -/
def mixerCost (r : RecipeState) : ℚ := mixerKWh r * r.electricRate

/-- The per-process entry of the stovetop cost breakdown. -/
structure StovetopCostEntry where
  name : String
  therms : ℚ
  kWh : ℚ
  cost : ℚ

/-- One stovetop process's energy use and cost: gas burners use the BTU
rating (per-process override or settings default) scaled by the power
level, electric and induction burners the corresponding wattage, each
divided by the technology's efficiency from settings. -/
def stovetopCostEntry (s : Settings) (gasRate electricRate : ℚ)
    (process : StovetopProcess) : StovetopCostEntry :=
  let durationHours := process.duration / 60
  let powerFraction := process.powerLevel / 100
  match process.stoveType with
  | StoveType.gas =>
    let burnerBTU := process.burnerBTU.getD s.gasBurnerBTU
    let effectiveBTU := burnerBTU * powerFraction
    let therms := effectiveBTU * durationHours / 100000 / s.gasBurnerEfficiency
    { name := process.name, therms := therms, kWh := 0, cost := therms * gasRate }
  | st =>
    let wattage := process.burnerWattage.getD
      (if st = StoveType.induction then s.inductionBurnerWattage else s.electricBurnerWattage)
    let effectiveWattage := wattage * powerFraction
    let efficiency :=
      if st = StoveType.induction then s.inductionBurnerEfficiency else s.electricBurnerEfficiency
    let kWh := effectiveWattage * durationHours / 1000 / efficiency
    { name := process.name, therms := 0, kWh := kWh, cost := kWh * electricRate }

/-- The stovetop cost breakdown of a recipe. -/
def stovetopCosts (s : Settings) (r : RecipeState) : List StovetopCostEntry :=
  r.stovetopProcesses.map (stovetopCostEntry s r.gasRate r.electricRate)

/-- Total stovetop cost: left fold of the per-process costs. -/
def totalStovetopCost (s : Settings) (r : RecipeState) : ℚ :=
  (stovetopCosts s r).foldl (fun sum p => sum + p.cost) 0

/-- Total energy cost: oven gas plus mixer electricity plus stovetop. -/
def totalEnergyCost (s : Settings) (r : RecipeState) : ℚ :=
  gasCost r + mixerCost r + totalStovetopCost s r

/-- Labor cost from labor time in minutes and an hourly rate. -/
def totalLaborCost (r : RecipeState) : ℚ := r.laborTime / 60 * r.laborRate

/-- Total packaging cost: per-unit packaging cost times yield quantity. -/
def totalPackagingCost (r : RecipeState) : ℚ := r.packagingCost * r.yieldQty

/-- Grand total of all cost components. -/
def grandTotal (s : Settings) (r : RecipeState) : ℚ :=
  totalIngredientCost r + totalEnergyCost s r + totalLaborCost r + totalPackagingCost r

/-- Grand total without the labor component. -/
def grandTotalWithoutLabor (s : Settings) (r : RecipeState) : ℚ :=
  totalIngredientCost r + totalEnergyCost s r + totalPackagingCost r

/-- Cost per yield unit, zero when the yield quantity is not positive. -/
def costPerUnit (s : Settings) (r : RecipeState) : ℚ :=
  if r.yieldQty > 0 then grandTotal s r / r.yieldQty else 0

/-- Cost per yield unit without labor, zero when the yield quantity is not
positive. -/
def costPerUnitWithoutLabor (s : Settings) (r : RecipeState) : ℚ :=
  if r.yieldQty > 0 then grandTotalWithoutLabor s r / r.yieldQty else 0

/-! Characterization of the density lookup. -/

theorem guessIngredientDensity_eq_some_iff {n : String} {d : ℚ} :
    guessIngredientDensity n = some d ↔
      ∃ key pre post, INGREDIENT_DENSITIES = pre ++ (key, d) :: post ∧
        containsChars key.data (lowerChars n.data) = true ∧
        ∀ p ∈ pre, containsChars p.1.data (lowerChars n.data) = false := by
  unfold guessIngredientDensity
  rw [Option.map_eq_some']
  constructor
  · rintro ⟨pair, hfind, rfl⟩
    rcases List.find?_eq_some.mp hfind with ⟨hpred, as, bs, heq, hall⟩
    refine ⟨pair.1, as, bs, heq, hpred, ?_⟩
    intro p hp
    simpa using hall p hp
  · rintro ⟨key, pre, post, heq, hmatch, hpre⟩
    refine ⟨(key, d), List.find?_eq_some.mpr ⟨hmatch, pre, post, heq, ?_⟩, rfl⟩
    intro p hp
    simp [hpre p hp]

theorem guessIngredientDensity_eq_none_iff {n : String} :
    guessIngredientDensity n = none ↔
      ∀ p ∈ INGREDIENT_DENSITIES, containsChars p.1.data (lowerChars n.data) = false := by
  unfold guessIngredientDensity
  rw [Option.map_eq_none', List.find?_eq_none]
  constructor
  · intro h p hp
    simpa using h p hp
  · intro h p hp
    simp [h p hp]

/-! The claims. -/

/-- C1: convert(1, "cup", "g", "water") = 236.588 exactly, and conversion
through the water density is symmetric: converting cups to grams and back
returns the original quantity, exactly over exact arithmetic. -/
theorem cup_gram_water_conversion_symmetric :
    convertUnits 1 "cup" "g" "water" = 236.588 ∧
    ∀ q : ℚ, convertUnits (convertUnits q "cup" "g" "water") "g" "cup" "water" = q := by
  have hcup : lookupFactor VOLUME_CONVERSIONS (normalizedUnit "cup") = some 236.588 := rfl
  have hg : lookupFactor WEIGHT_CONVERSIONS (normalizedUnit "g") = some 1 := rfl
  have hw : guessIngredientDensity "water" = some 1.0 := rfl
  constructor
  · rw [convertUnits_vol_to_weight hcup hg hw]
    norm_num
  · intro q
    rw [convertUnits_vol_to_weight hcup hg hw, convertUnits_weight_to_vol hg hcup hw]
    norm_num

/-- C2: when the trimmed lowercase forms of both unit strings are distinct
and both are keys of the weight table, conversion is quantity times the
source factor divided by the target factor; analogously for the volume
table. -/
theorem same_category_conversion_formula (q : ℚ) (n u v : String) (a b : ℚ) :
    (lookupFactor WEIGHT_CONVERSIONS (normalizedUnit u) = some a →
     lookupFactor WEIGHT_CONVERSIONS (normalizedUnit v) = some b →
     normalizedUnit u ≠ normalizedUnit v →
     convertUnits q u v n = q * a / b) ∧
    (lookupFactor VOLUME_CONVERSIONS (normalizedUnit u) = some a →
     lookupFactor VOLUME_CONVERSIONS (normalizedUnit v) = some b →
     normalizedUnit u ≠ normalizedUnit v →
     convertUnits q u v n = q * a / b) :=
  ⟨fun hu hv hne => convertUnits_weight hu hv hne,
   fun hu hv hne => convertUnits_volume hu hv hne⟩

/-- Witness for C2: 2 kg is 2000 g via the weight table, 2 l is 2000 ml
via the volume table. -/
theorem same_category_conversion_formula_witness :
    convertUnits 2 "kg" "g" "" = 2 * 1000 / 1 ∧
    convertUnits 2 "l" "ml" "" = 2 * 1000 / 1 :=
  ⟨(same_category_conversion_formula 2 "" "kg" "g" 1000 1).1 rfl rfl (by decide),
   (same_category_conversion_formula 2 "" "l" "ml" 1000 1).2 rfl rfl (by decide)⟩

/-- C3: convert is fail-soft: when either unit is in neither table the
original quantity is returned, when the units are cross-category and no
density-table key is a substring of the lowercased ingredient name the
original quantity is returned, and in particular
convert(5, "xyz", "g", "flour") = 5. -/
theorem convert_total_fail_soft (q : ℚ) (n u v : String) :
    ((lookupFactor WEIGHT_CONVERSIONS (normalizedUnit u) = none ∧
      lookupFactor VOLUME_CONVERSIONS (normalizedUnit u) = none) →
      convertUnits q u v n = q) ∧
    ((lookupFactor WEIGHT_CONVERSIONS (normalizedUnit v) = none ∧
      lookupFactor VOLUME_CONVERSIONS (normalizedUnit v) = none) →
      convertUnits q u v n = q) ∧
    (∀ a b : ℚ,
      lookupFactor WEIGHT_CONVERSIONS (normalizedUnit u) = some a →
      lookupFactor VOLUME_CONVERSIONS (normalizedUnit v) = some b →
      (∀ p ∈ INGREDIENT_DENSITIES, containsChars p.1.data (lowerChars n.data) = false) →
      convertUnits q u v n = q) ∧
    (∀ a b : ℚ,
      lookupFactor VOLUME_CONVERSIONS (normalizedUnit u) = some a →
      lookupFactor WEIGHT_CONVERSIONS (normalizedUnit v) = some b →
      (∀ p ∈ INGREDIENT_DENSITIES, containsChars p.1.data (lowerChars n.data) = false) →
      convertUnits q u v n = q) ∧
    convertUnits 5 "xyz" "g" "flour" = 5 := by
  refine ⟨fun h => convertUnits_unresolved_from h.1 h.2,
          fun h => convertUnits_unresolved_to h.1 h.2,
          fun a b hu hv hn =>
            convertUnits_weight_vol_no_density hu hv
              (guessIngredientDensity_eq_none_iff.mpr hn),
          fun a b hu hv hn =>
            convertUnits_vol_weight_no_density hu hv
              (guessIngredientDensity_eq_none_iff.mpr hn),
          convertUnits_unresolved_from rfl rfl⟩

/-- Witness for C3: "xyz" is in neither table, and grams to milliliters of
the unknown ingredient "brine" is a no-op. -/
theorem convert_total_fail_soft_witness :
    convertUnits 5 "xyz" "g" "flour" = 5 ∧
    convertUnits 3 "g" "ml" "brine" = 3 :=
  ⟨(convert_total_fail_soft 5 "flour" "xyz" "g").1 ⟨rfl, rfl⟩,
   (convert_total_fail_soft 3 "brine" "g" "ml").2.2.1 1 1 rfl rfl (by decide)⟩

/-- C7: the density lookup is deterministic first-match in insertion
order: a result d is returned exactly when the table splits as a prefix of
non-matching keys followed by an entry with value d whose key is a
substring of the lowercased name, and nothing is returned exactly when no
key matches. -/
theorem density_lookup_first_match (n : String) (d : ℚ) :
    (guessIngredientDensity n = some d ↔
      ∃ key pre post, INGREDIENT_DENSITIES = pre ++ (key, d) :: post ∧
        containsChars key.data (lowerChars n.data) = true ∧
        ∀ p ∈ pre, containsChars p.1.data (lowerChars n.data) = false) ∧
    (guessIngredientDensity n = none ↔
      ∀ p ∈ INGREDIENT_DENSITIES, containsChars p.1.data (lowerChars n.data) = false) :=
  ⟨guessIngredientDensity_eq_some_iff, guessIngredientDensity_eq_none_iff⟩

/-- C10: the weight table maps "ct", "count" and "piece" to 55 grams, so a
count converts to grams at 55 g per piece, to any other weight unit via the
55 g factor, and to volume units through the density lookup as a weight. -/
theorem count_units_are_weight_units (q : ℚ) (n : String) :
    lookupFactor WEIGHT_CONVERSIONS (normalizedUnit "ct") = some 55 ∧
    lookupFactor WEIGHT_CONVERSIONS (normalizedUnit "count") = some 55 ∧
    lookupFactor WEIGHT_CONVERSIONS (normalizedUnit "piece") = some 55 ∧
    convertUnits q "ct" "g" n = 55 * q ∧
    (∀ (u : String) (f : ℚ),
      lookupFactor WEIGHT_CONVERSIONS (normalizedUnit u) = some f →
      convertUnits q "ct" u n = q * 55 / f) ∧
    (∀ (u : String) (f d : ℚ),
      lookupFactor VOLUME_CONVERSIONS (normalizedUnit u) = some f →
      guessIngredientDensity n = some d →
      convertUnits q "ct" u n = q * 55 / d / f) := by
  have hct : lookupFactor WEIGHT_CONVERSIONS (normalizedUnit "ct") = some 55 := rfl
  have hg : lookupFactor WEIGHT_CONVERSIONS (normalizedUnit "g") = some 1 := rfl
  refine ⟨rfl, rfl, rfl, ?_, ?_, ?_⟩
  · rw [convertUnits_weight hct hg (by decide)]
    ring
  · intro u f hu
    by_cases hcase : normalizedUnit "ct" = normalizedUnit u
    · rw [← hcase] at hu
      rw [hct] at hu
      obtain rfl : (55 : ℚ) = f := Option.some.inj hu
      rw [convertUnits_same hcase]
      rw [mul_div_cancel_right₀ q (by norm_num : (55:ℚ) ≠ 0)]
    · exact convertUnits_weight hct hu hcase
  · intro u f d hu hd
    exact convertUnits_weight_to_vol hct hu hd

/-- Witness for C10: 2 pieces are 110/1000 kg, and 2 pieces of milk are
2*55/1.03 ml. -/
theorem count_units_are_weight_units_witness :
    convertUnits 2 "ct" "kg" "stuff" = 2 * 55 / 1000 ∧
    convertUnits 2 "ct" "ml" "milk" = 2 * 55 / 1.03 / 1 :=
  ⟨(count_units_are_weight_units 2 "stuff").2.2.2.2.1 "kg" 1000 rfl,
   (count_units_are_weight_units 2 "milk").2.2.2.2.2 "ml" 1 1.03 rfl rfl⟩

/-! Engine helper lemmas and sample inputs. -/

theorem foldl_add_eq_sum {α : Type} (f : α → ℚ) (l : List α) (init : ℚ) :
    l.foldl (fun sum x => sum + f x) init = init + (l.map f).sum := by
  induction l generalizing init with
  | nil => simp
  | cons x t ih =>
    rw [List.foldl_cons, ih, List.map_cons, List.sum_cons]
    ring

/-- A settings record with the spec scenario's gas burner efficiency 0.4. -/
def sampleGasSettings : Settings :=
  { laborRate := 20
    gasRate := 2.6
    electricRate := 0.18
    stoveType := StoveType.gas
    gasBurnerBTU := 9000
    electricBurnerWattage := 2000
    inductionBurnerWattage := 1800
    gasBurnerEfficiency := 0.4
    electricBurnerEfficiency := 0.75
    inductionBurnerEfficiency := 0.9 }

/-- The spec scenario's gas stovetop process. -/
def sampleGasProcess : StovetopProcess :=
  { name := "simmer"
    stoveType := StoveType.gas
    burnerBTU := some 12000
    burnerWattage := none
    powerLevel := 70
    duration := 10 }

/-- A recipe with the spec scenario's gas rate 2.6 and one gas process. -/
def gasStoveRecipe : RecipeState :=
  { ingredients := []
    preheatTime := 0
    bakeTime := 0
    mixerTime := 0
    laborTime := 0
    laborRate := 20
    packagingCost := 0
    yieldQty := 1
    gasRate := 2.6
    electricRate := 0.18
    stovetopProcesses := [sampleGasProcess] }

/-- The spec oven scenario: preheat 15, bake 45, gas rate 1.5. -/
def ovenSampleRecipe : RecipeState :=
  { ingredients := []
    preheatTime := 15
    bakeTime := 45
    mixerTime := 0
    laborTime := 0
    laborRate := 20
    packagingCost := 0
    yieldQty := 1
    gasRate := 1.5
    electricRate := 0.18
    stovetopProcesses := [] }

/-- A recipe with zero yield quantity. -/
def zeroYieldRecipe : RecipeState :=
  { ingredients := []
    preheatTime := 0
    bakeTime := 0
    mixerTime := 0
    laborTime := 0
    laborRate := 20
    packagingCost := 0
    yieldQty := 0
    gasRate := 2.6
    electricRate := 0.18
    stovetopProcesses := [] }

/-- An ingredient line with a zero package size. -/
def freeIngredient : Ingredient :=
  { name := "flour"
    quantity := 500
    unit := "g"
    packageSize := 0
    packageUnit := "g"
    packagePrice := 10 }

/-- An ingredient line with a positive package size. -/
def pricedIngredient : Ingredient :=
  { name := "flour"
    quantity := 500
    unit := "g"
    packageSize := 2268
    packageUnit := "g"
    packagePrice := 10 }

/-- C4: the grand total is exactly the sum of the ingredient, energy,
labor and packaging totals, and the grand total without labor is the grand
total minus the labor cost. -/
theorem grand_total_additivity (s : Settings) (r : RecipeState) :
    grandTotal s r =
      totalIngredientCost r + totalEnergyCost s r + totalLaborCost r + totalPackagingCost r ∧
    grandTotalWithoutLabor s r = grandTotal s r - totalLaborCost r := by
  refine ⟨rfl, ?_⟩
  unfold grandTotal grandTotalWithoutLabor
  ring

/-- C5: per-process stovetop cost follows the gas BTU formula or the
electric/induction wattage formula with per-type settings defaults, the
total is the sum over all processes, and the spec's gas scenario yields
therms 0.035 and cost 0.091 exactly. -/
theorem stovetop_energy_formula (s : Settings) (r : RecipeState) (p : StovetopProcess) :
    (p.stoveType = StoveType.gas →
      (stovetopCostEntry s r.gasRate r.electricRate p).cost =
        p.burnerBTU.getD s.gasBurnerBTU * (p.powerLevel / 100) * (p.duration / 60) /
          100000 / s.gasBurnerEfficiency * r.gasRate) ∧
    (p.stoveType = StoveType.electric →
      (stovetopCostEntry s r.gasRate r.electricRate p).cost =
        p.burnerWattage.getD s.electricBurnerWattage * (p.powerLevel / 100) * (p.duration / 60) /
          1000 / s.electricBurnerEfficiency * r.electricRate) ∧
    (p.stoveType = StoveType.induction →
      (stovetopCostEntry s r.gasRate r.electricRate p).cost =
        p.burnerWattage.getD s.inductionBurnerWattage * (p.powerLevel / 100) * (p.duration / 60) /
          1000 / s.inductionBurnerEfficiency * r.electricRate) ∧
    totalStovetopCost s r = ((stovetopCosts s r).map (fun e => e.cost)).sum ∧
    (stovetopCostEntry sampleGasSettings 2.6 0.18 sampleGasProcess).therms = 0.035 ∧
    (stovetopCostEntry sampleGasSettings 2.6 0.18 sampleGasProcess).cost = 0.091 := by
  refine ⟨?_, ?_, ?_, ?_, ?_, ?_⟩
  · intro h
    simp [stovetopCostEntry, h]
  · intro h
    simp [stovetopCostEntry, h]
  · intro h
    simp [stovetopCostEntry, h]
  · have := foldl_add_eq_sum (fun e : StovetopCostEntry => e.cost) (stovetopCosts s r) 0
    simpa [totalStovetopCost] using this
  · norm_num [stovetopCostEntry, sampleGasSettings, sampleGasProcess]
  · norm_num [stovetopCostEntry, sampleGasSettings, sampleGasProcess]

/-- Witness for C5: the gas formula applied to the spec's sample process. -/
theorem stovetop_energy_formula_witness :
    (stovetopCostEntry sampleGasSettings gasStoveRecipe.gasRate gasStoveRecipe.electricRate
        sampleGasProcess).cost =
      sampleGasProcess.burnerBTU.getD sampleGasSettings.gasBurnerBTU *
        (sampleGasProcess.powerLevel / 100) * (sampleGasProcess.duration / 60) /
        100000 / sampleGasSettings.gasBurnerEfficiency * gasStoveRecipe.gasRate :=
  (stovetop_energy_formula sampleGasSettings gasStoveRecipe sampleGasProcess).1 rfl

/-- C6: the oven energy model uses the fixed constants 25000 BTU/hr and
efficiency 0.65, thermsUsed and gasCost follow the spec formulas, and the
spec oven scenario yields thermsUsed 5/13 and gasCost 7.5/13 exactly. -/
theorem oven_energy_fixed_constants (r : RecipeState) :
    ovenBTU = 25000 ∧ ovenEfficiency = 0.65 ∧
    thermsUsed r = (r.preheatTime + r.bakeTime) / 60 * 25000 / 100000 / 0.65 ∧
    gasCost r = thermsUsed r * r.gasRate ∧
    thermsUsed ovenSampleRecipe = 5 / 13 ∧
    gasCost ovenSampleRecipe = 7.5 / 13 := by
  refine ⟨rfl, rfl, ?_, rfl, ?_, ?_⟩
  · unfold thermsUsed totalOvenTime ovenBTU ovenEfficiency
    ring
  · norm_num [thermsUsed, totalOvenTime, ovenBTU, ovenEfficiency, ovenSampleRecipe]
  · norm_num [gasCost, thermsUsed, totalOvenTime, ovenBTU, ovenEfficiency, ovenSampleRecipe]

/-- C8: a non-positive package size yields a zero unit price and hence a
zero line cost; a positive package size yields unit price
packagePrice / packageSize and line cost convertedQuantity * unit price. -/
theorem package_size_guard (ing : Ingredient) :
    (ing.packageSize ≤ 0 →
      (ingredientCostEntry ing).pricePerPackageUnit = 0 ∧
      (ingredientCostEntry ing).cost = 0) ∧
    (ing.packageSize > 0 →
      (ingredientCostEntry ing).pricePerPackageUnit = ing.packagePrice / ing.packageSize ∧
      (ingredientCostEntry ing).cost =
        convertUnits ing.quantity ing.unit ing.packageUnit ing.name *
          (ing.packagePrice / ing.packageSize)) := by
  constructor
  · intro h
    have h' : ¬ ing.packageSize > 0 := not_lt.mpr h
    constructor <;> simp [ingredientCostEntry, h']
  · intro h
    constructor <;> simp [ingredientCostEntry, h]

/-- Witness for C8: a zero-size package costs nothing, a 2268 g package at
10 gives unit price 10/2268. -/
theorem package_size_guard_witness :
    (ingredientCostEntry freeIngredient).cost = 0 ∧
    (ingredientCostEntry pricedIngredient).pricePerPackageUnit = 10 / 2268 :=
  ⟨((package_size_guard freeIngredient).1 (by norm_num [freeIngredient])).2,
   ((package_size_guard pricedIngredient).2 (by norm_num [pricedIngredient])).1⟩

/-- C9: a non-positive yield quantity yields zero per-unit costs while the
grand total is still the sum of its components; a positive yield quantity
divides the grand totals by the yield. -/
theorem yield_quantity_guard (s : Settings) (r : RecipeState) :
    (¬ r.yieldQty > 0 →
      costPerUnit s r = 0 ∧ costPerUnitWithoutLabor s r = 0 ∧
      grandTotal s r =
        totalIngredientCost r + totalEnergyCost s r + totalLaborCost r + totalPackagingCost r) ∧
    (r.yieldQty > 0 →
      costPerUnit s r = grandTotal s r / r.yieldQty ∧
      costPerUnitWithoutLabor s r = grandTotalWithoutLabor s r / r.yieldQty) := by
  constructor
  · intro h
    exact ⟨by simp [costPerUnit, h], by simp [costPerUnitWithoutLabor, h], rfl⟩
  · intro h
    exact ⟨by simp [costPerUnit, h], by simp [costPerUnitWithoutLabor, h]⟩

/-- Witness for C9: zero yield gives zero cost per unit, yield one divides
the grand total by one. -/
theorem yield_quantity_guard_witness :
    costPerUnit sampleGasSettings zeroYieldRecipe = 0 ∧
    costPerUnit sampleGasSettings gasStoveRecipe =
      grandTotal sampleGasSettings gasStoveRecipe / gasStoveRecipe.yieldQty :=
  ⟨((yield_quantity_guard sampleGasSettings zeroYieldRecipe).1 (by norm_num [zeroYieldRecipe])).1,
   ((yield_quantity_guard sampleGasSettings gasStoveRecipe).2 (by norm_num [gasStoveRecipe])).1⟩
